import Mathlib

/-!
Shallow embedding of the crewai-rust execution core
(crewai-core/src/agents.rs, tasks.rs, crew.rs, errors.rs, execution.rs).

Rust mutation is modelled by explicit state passing: a function taking
a mutable slice of tasks returns the updated task list together with
its result.  The opaque task operation (Task::execute at the boundary)
is a parameter `perform : Task → Except String Unit`, whose String is
the rendered error reason; the cooperative-concurrent strategy takes an
`outcome : Task → RunOutcome` oracle so that a panic of the opaque
operation is representable.  Println logging is diagnostic only and is
not modelled.
-/

namespace CrewAI

/-- TaskStatus from tasks.rs: closed variant set Pending, Running,
Completed, Failed(reason). -/
inductive TaskStatus where
  | Pending
  | Running
  | Completed
  | Failed (reason : String)
deriving DecidableEq, Repr

/-- Task from tasks.rs: id, description, expected output, optional weak
agent reference, mutable status. -/
structure Task where
  id : Nat
  description : String
  expected_output : String
  agent_name : Option String
  status : TaskStatus
deriving DecidableEq, Repr

/-- Agent from agents.rs. -/
structure Agent where
  name : String
  role : String
  expertise : Option String
deriving DecidableEq, Repr

/-- Crew from crew.rs: aggregate root owning agents and tasks, with a
process kind stored as a free-form string. -/
structure Crew where
  name : String
  agents : List Agent
  tasks : List Task
  process : String
deriving DecidableEq, Repr

/-- CrewAIError from errors.rs (the IO and YAML variants belong to the
excluded config-loading collaborator and are omitted). -/
inductive CrewAIError where
  | MissingField (msg : String)
  | InvalidConfig (msg : String)
  | ExecutionError (msg : String)
  | AsyncRuntimeError (msg : String)
  | TaskPanic (msg : String)
deriving DecidableEq, Repr

/-- Agent::new from agents.rs: rejects empty name, then empty role. -/
def Agent.new (name role : String) (expertise : Option String) :
    Except CrewAIError Agent :=
  if name.isEmpty then
    .error (.MissingField "Agent name cannot be empty")
  else if role.isEmpty then
    .error (.MissingField "Agent role cannot be empty")
  else
    .ok { name := name, role := role, expertise := expertise }

/-- Task::new from tasks.rs: rejects empty description, then empty
expected output; status starts Pending. -/
def Task.new (id : Nat) (description expected_output : String)
    (agent_name : Option String) : Except CrewAIError Task :=
  if description.isEmpty then
    .error (.MissingField "Task description cannot be empty")
  else if expected_output.isEmpty then
    .error (.MissingField "Task expected output cannot be empty")
  else
    .ok { id := id, description := description,
          expected_output := expected_output, agent_name := agent_name,
          status := .Pending }

/-- Task::execute from tasks.rs: a placeholder for actual work that
only prints, sleeps 100 ms (side effects not modelled) and returns Ok. -/
def Task.execute (_t : Task) : Except String Unit := .ok ()

/-- Task::set_status from tasks.rs. -/
def Task.set_status (t : Task) (s : TaskStatus) : Task :=
  { t with status := s }

/-- Crew::new from crew.rs: rejects an empty name, then a process kind
outside the closed set; starts with no agents and no tasks. -/
def Crew.new (name process : String) : Except CrewAIError Crew :=
  if name.isEmpty then
    .error (.MissingField "Crew name cannot be empty")
  else if !(["sequential", "parallel", "async"].contains process) then
    .error (.InvalidConfig ("Invalid process type: " ++ process ++
      ". Must be \x27sequential\x27, \x27parallel\x27, or \x27async\x27"))
  else
    .ok { name := name, agents := [], tasks := [], process := process }

/-- Crew::add_agent from crew.rs. -/
def Crew.add_agent (c : Crew) (a : Agent) : Crew :=
  { c with agents := c.agents ++ [a] }

/-- Crew::add_task from crew.rs. -/
def Crew.add_task (c : Crew) (t : Task) : Crew :=
  { c with tasks := c.tasks ++ [t] }

/-- The per-task loop body of Crew::validate from crew.rs: the first
task whose set agent name matches no agent yields an error. -/
def validateTaskRefs (agents : List Agent) : List Task → Except CrewAIError Unit
  | [] => .ok ()
  | t :: rest =>
    match t.agent_name with
    | some n =>
      if agents.any (fun a => a.name == n) then
        validateTaskRefs agents rest
      else
        .error (.InvalidConfig ("Task references agent \x27" ++ n ++
          "\x27 which doesn\x27t exist in the crew"))
    | none => validateTaskRefs agents rest

/-- Crew::validate from crew.rs: agents nonempty, then tasks nonempty,
then every set agent reference resolves, in task order. -/
def Crew.validate (c : Crew) : Except CrewAIError Unit :=
  if c.agents.isEmpty then
    .error (.InvalidConfig "Crew must have at least one agent")
  else if c.tasks.isEmpty then
    .error (.InvalidConfig "Crew must have at least one task")
  else
    validateTaskRefs c.agents c.tasks

/-- execute_tasks_sequentially from execution.rs: walks the task list
in order, sets Running, invokes the opaque operation, sets Completed on
success, sets Failed and returns the aggregated error immediately on
the first failure (later tasks untouched).  The mutated slice is the
first component of the result. -/
def execute_tasks_sequentially (perform : Task → Except String Unit) :
    List Task → List Task × Except CrewAIError Unit
  | [] => ([], .ok ())
  | t :: rest =>
    let t1 := t.set_status .Running
    match perform t1 with
    | .ok () =>
      let t2 := t1.set_status .Completed
      let (rest2, r) := execute_tasks_sequentially perform rest
      (t2 :: rest2, r)
    | .error e =>
      let error_msg := "Task " ++ toString t1.id ++ " failed: " ++ e
      let t2 := t1.set_status (.Failed error_msg)
      (t2 :: rest,
        .error (.ExecutionError
          ("Failed to execute task " ++ toString t1.id ++ ": " ++ e)))

/-- The rayon worker closure of execute_tasks_rayon from execution.rs:
runs one cloned task under its own mutex, recording the final clone and
the optional error message. -/
def runTaskClone (perform : Task → Except String Unit) (task : Task) :
    Task × Option String :=
  let t1 := task.set_status .Running
  match perform t1 with
  | .ok () => (t1.set_status .Completed, none)
  | .error e =>
    let error_msg := "Task " ++ toString t1.id ++ " failed: " ++ e
    (t1.set_status (.Failed error_msg), some error_msg)

/-- execute_tasks_rayon from execution.rs: clones every task into a
mutex cell, runs all of them (each cell touched only by its own
worker), then collects the error messages in cell order — the original
task-list order — and aggregates them.  The final clones (the contents
of tasks_with_status, dropped by the Rust code) are the first component;
the borrowed input slice itself is never written. -/
def execute_tasks_rayon (perform : Task → Except String Unit)
    (tasks : List Task) : List Task × Except CrewAIError Unit :=
  let results := tasks.map (runTaskClone perform)
  let errors := results.filterMap (fun r => r.2)
  (results.map (fun r => r.1),
    if errors.isEmpty then .ok ()
    else .error (.ExecutionError
      ("Multiple task execution failures: " ++ String.intercalate ", " errors)))

/-- Outcome of one invocation of the opaque task operation inside a
spawned tokio activity: success, failure with a reason, or a panic
(whose string renders the join error). -/
inductive RunOutcome where
  | ok
  | fail (e : String)
  | panicked (e : String)
deriving DecidableEq, Repr

/-- The spawned activity body of execute_tasks_tokio from execution.rs:
sets the shared status cell to Running, runs the task, then writes
Completed or Failed.  A panic of the task operation aborts the activity
before the final status write, so the cell keeps Running and the join
handle resolves to an error.  Returns the final status cell value and
the join result (outer error = join error from a panic, inner error =
the mapped task failure message). -/
def tokioActivity (outcome : Task → RunOutcome) (t : Task) :
    TaskStatus × Except String (Except String Unit) :=
  match outcome t with
  | .ok => (.Completed, .ok (.ok ()))
  | .fail e =>
    let error_msg := "Task " ++ toString t.id ++ " failed: " ++ e
    (.Failed error_msg, .ok (.error error_msg))
  | .panicked e => (.Running, .error e)

/-- execute_tasks_tokio from execution.rs: spawns one activity per task
(the separate status vector starts all Pending), awaits them all in
order, turns a join error into a "Task panicked" message, and
aggregates all failure messages.  The final status vector (dropped by
the Rust code) is the first component. -/
def execute_tasks_tokio (outcome : Task → RunOutcome)
    (tasks : List Task) : List TaskStatus × Except CrewAIError Unit :=
  let results := tasks.map (tokioActivity outcome)
  let errors := results.filterMap (fun r =>
    match r.2 with
    | .ok (.ok ()) => none
    | .ok (.error e) => some e
    | .error e => some ("Task panicked: " ++ e))
  (results.map (fun r => r.1),
    if errors.isEmpty then .ok ()
    else .error (.ExecutionError
      ("Multiple async task failures: " ++ String.intercalate ", " errors)))

/-- Crew::execute_sequential from crew.rs: validate, then run the
sequential strategy on the crew\x27s own (mutably borrowed) task list. -/
def Crew.execute_sequential (perform : Task → Except String Unit)
    (c : Crew) : Crew × Except CrewAIError Unit :=
  match c.validate with
  | .error e => (c, .error e)
  | .ok () =>
    let (tasks2, r) := execute_tasks_sequentially perform c.tasks
    ({ c with tasks := tasks2 }, r)

/-- Crew::execute_parallel_rayon from crew.rs: validate, then run the
rayon strategy on an immutable borrow of the tasks — the crew is never
mutated. -/
def Crew.execute_parallel_rayon (perform : Task → Except String Unit)
    (c : Crew) : Crew × Except CrewAIError Unit :=
  match c.validate with
  | .error e => (c, .error e)
  | .ok () => (c, (execute_tasks_rayon perform c.tasks).2)

/-- Crew::execute_concurrent_tokio from crew.rs: validate, then run the
tokio strategy on a clone of the tasks — the crew is never mutated. -/
def Crew.execute_concurrent_tokio (outcome : Task → RunOutcome)
    (c : Crew) : Crew × Except CrewAIError Unit :=
  match c.validate with
  | .error e => (c, .error e)
  | .ok () => (c, (execute_tasks_tokio outcome c.tasks).2)

/-- Crew::execute from crew.rs: synchronous dispatch on the process
string; the async kind is refused before any validation or task runs. -/
def Crew.execute (perform : Task → Except String Unit) (c : Crew) :
    Crew × Except CrewAIError Unit :=
  if c.process = "sequential" then c.execute_sequential perform
  else if c.process = "parallel" then c.execute_parallel_rayon perform
  else if c.process = "async" then
    (c, .error (.InvalidConfig
      "Cannot execute async process synchronously. Use execute_async() instead."))
  else
    (c, .error (.InvalidConfig ("Unknown process type: " ++ c.process)))

/-- Crew::execute_async from crew.rs: dispatch accepting all three
process kinds; sequential and parallel delegate to the synchronous
strategies, async runs the tokio strategy. -/
def Crew.execute_async (perform : Task → Except String Unit)
    (outcome : Task → RunOutcome) (c : Crew) :
    Crew × Except CrewAIError Unit :=
  if c.process = "sequential" then c.execute_sequential perform
  else if c.process = "parallel" then c.execute_parallel_rayon perform
  else if c.process = "async" then c.execute_concurrent_tokio outcome
  else
    (c, .error (.InvalidConfig ("Unknown process type: " ++ c.process)))

/-- Spec-side description used for the refinement comparison of failure
aggregation: the failure message of every task whose operation fails,
collected in original task-list order, as the spec words it. -/
def specFailureMessages (perform : Task → Except String Unit)
    (tasks : List Task) : List String :=
  tasks.filterMap (fun t =>
    match perform (t.set_status .Running) with
    | .ok () => none
    | .error e => some ("Task " ++ toString t.id ++ " failed: " ++ e))

/-- Discriminator for the Failed variant, used to state facts about a
status without naming a particular reason string. -/
def TaskStatus.isFailed : TaskStatus → Bool
  | .Failed _ => true
  | _ => false

/- Concrete fixtures used by witnesses and counterexamples. -/

/-- A pending task with id 1. -/
def tA : Task :=
  { id := 1, description := "d1", expected_output := "o1",
    agent_name := none, status := .Pending }

/-- A pending task with id 2. -/
def tB : Task :=
  { id := 2, description := "d2", expected_output := "o2",
    agent_name := none, status := .Pending }

/-- A pending task with id 3. -/
def tC : Task :=
  { id := 3, description := "d3", expected_output := "o3",
    agent_name := none, status := .Pending }

/-- A pending task referencing an agent name absent from any fixture
crew. -/
def tGhost : Task :=
  { id := 4, description := "d4", expected_output := "o4",
    agent_name := some "ghost", status := .Pending }

/-- A fixture agent. -/
def agX : Agent := { name := "a", role := "r", expertise := none }

/-- An opaque-operation oracle failing exactly on task id 2 with reason
"boom". -/
def pFail2 : Task → Except String Unit :=
  fun t => if t.id == 2 then .error "boom" else .ok ()

/-- A tokio-activity oracle failing exactly on task id 2 with reason
"boom". -/
def oFail2 : Task → RunOutcome :=
  fun t => if t.id == 2 then .fail "boom" else .ok

/-- A tokio-activity oracle panicking exactly on task id 2. -/
def oPanic2 : Task → RunOutcome :=
  fun t => if t.id == 2 then .panicked "pboom" else .ok

/-- A valid three-task crew with the parallel process kind. -/
def crewPar : Crew :=
  { name := "c", agents := [agX], tasks := [tA, tB, tC], process := "parallel" }

/-- A valid three-task crew with the async process kind. -/
def crewAsync : Crew :=
  { name := "c", agents := [agX], tasks := [tA, tB, tC], process := "async" }

/-- A valid three-task crew with the sequential process kind. -/
def crewSeq : Crew :=
  { name := "c", agents := [agX], tasks := [tA, tB, tC], process := "sequential" }

/-- A crew that fails validation: it has a task but no agents. -/
def crewNoAgents : Crew :=
  { name := "c", agents := [], tasks := [tA], process := "sequential" }

/-- A crew that fails validation: its only task references an agent
name no agent carries. -/
def crewDangling : Crew :=
  { name := "c", agents := [agX], tasks := [tGhost], process := "sequential" }

/-- Reading the status right after a status write yields that status. -/
@[simp] theorem Task.status_set_status (t : Task) (s : TaskStatus) :
    (t.set_status s).status = s := rfl

/-- A status write only touches the status field: the id survives. -/
@[simp] theorem Task.id_set_status (t : Task) (s : TaskStatus) :
    (t.set_status s).id = t.id := rfl

/-- C1: the sequential strategy is fail-fast.  For every three tasks
whose operations respectively succeed, fail with reason e, and would
succeed, with the third task initially Pending, running the sequential
strategy leaves task one Completed, task two Failed with its message,
task three untouched at Pending, and returns a single ExecutionError
naming the id and reason of task two only. -/
theorem sequential_fail_fast (perform : Task → Except String Unit)
    (t1 t2 t3 : Task) (e : String)
    (h1 : perform (t1.set_status .Running) = .ok ())
    (h2 : perform (t2.set_status .Running) = .error e)
    (_h3 : perform (t3.set_status .Running) = .ok ())
    (hp : t3.status = .Pending) :
    (execute_tasks_sequentially perform [t1, t2, t3]).1.map Task.status =
        [.Completed, .Failed ("Task " ++ toString t2.id ++ " failed: " ++ e),
          .Pending]
    ∧ (execute_tasks_sequentially perform [t1, t2, t3]).2 =
        .error (.ExecutionError
          ("Failed to execute task " ++ toString t2.id ++ ": " ++ e)) := by
  simp [execute_tasks_sequentially, h1, h2, hp]

/-- C1 witness: the fail-fast theorem instantiated at the concrete
three-task fixture with the oracle failing on id 2. -/
theorem sequential_fail_fast_witness :
    (execute_tasks_sequentially pFail2 [tA, tB, tC]).1.map Task.status =
        [.Completed, .Failed ("Task " ++ toString tB.id ++ " failed: " ++ "boom"),
          .Pending]
    ∧ (execute_tasks_sequentially pFail2 [tA, tB, tC]).2 =
        .error (.ExecutionError
          ("Failed to execute task " ++ toString tB.id ++ ": " ++ "boom")) :=
  sequential_fail_fast pFail2 tA tB tC "boom" rfl rfl rfl rfl

/-- C3: the parallel and concurrent entry points never mutate the
status of any task owned by the Crew: whatever the oracles do, after
execute_parallel_rayon (which runs on clones) and after
execute_concurrent_tokio (which records statuses in a separate vector),
every task of the crew has exactly the status it had before. -/
theorem parallel_concurrent_frame (c : Crew)
    (perform : Task → Except String Unit) (outcome : Task → RunOutcome) :
    (c.execute_parallel_rayon perform).1.tasks.map Task.status =
        c.tasks.map Task.status
    ∧ (c.execute_concurrent_tokio outcome).1.tasks.map Task.status =
        c.tasks.map Task.status := by
  have hp : (c.execute_parallel_rayon perform).1 = c := by
    unfold Crew.execute_parallel_rayon
    split <;> rfl
  have ht : (c.execute_concurrent_tokio outcome).1 = c := by
    unfold Crew.execute_concurrent_tokio
    split <;> rfl
  rw [hp, ht]
  exact ⟨rfl, rfl⟩

/-- C4: for every Crew that fails validation, the synchronous execute
entry point returns an error and leaves the crew — in particular every
task status — exactly as it was: no task operation runs before
validation passes. -/
theorem execute_validation_guard (c : Crew)
    (perform : Task → Except String Unit) (e : CrewAIError)
    (hv : c.validate = .error e) :
    (c.execute perform).1 = c ∧ ∃ e2, (c.execute perform).2 = .error e2 := by
  unfold Crew.execute Crew.execute_sequential Crew.execute_parallel_rayon
  split_ifs <;> simp [hv]

/-- C4 witness: the guard theorem instantiated at a concrete crew with
no agents. -/
theorem execute_validation_guard_witness :
    (crewNoAgents.execute pFail2).1 = crewNoAgents
    ∧ ∃ e2, (crewNoAgents.execute pFail2).2 = .error e2 :=
  execute_validation_guard crewNoAgents pFail2
    (.InvalidConfig "Crew must have at least one agent") rfl

/-- Joining a single message with a separator yields that message. -/
@[simp] theorem intercalate_singleton (s x : String) :
    String.intercalate s [x] = x := rfl

/-- The join helper applied to an exhausted message list returns its
accumulator. -/
@[simp] theorem intercalate_go_nil (acc s : String) :
    String.intercalate.go acc s [] = acc := rfl

/-- C2 counterexample: on a concrete valid three-task parallel crew
whose second task fails, the statuses observable on the Crew after the
synchronous execute are all still Pending — in particular the first
task is not Completed as the claim demands — because the rayon strategy
runs on clones of the tasks. -/
theorem parallel_status_counterexample :
    (crewPar.execute pFail2).1.tasks.map Task.status =
        [.Pending, .Pending, .Pending]
    ∧ ¬ ((crewPar.execute pFail2).1.tasks.map Task.status =
        [.Completed, .Failed "Task 2 failed: boom", .Completed]) := by
  decide

/-- C2 amended: for every valid three-task crew whose second task fails
with reason e while the first and third succeed, the parallel execute
and the concurrent execute_async return the crew itself unchanged (the
strategies run on clones, so no status on the Crew moves) together with
one aggregated error whose message set is exactly the failure message
of task two; the clone statuses internal to the rayon strategy and the
separate status vector internal to the tokio strategy do read
Completed, Failed, Completed. -/
theorem parallel_concurrent_not_fail_fast (c : Crew)
    (perform : Task → Except String Unit) (outcome : Task → RunOutcome)
    (t1 t2 t3 : Task) (e : String)
    (hts : c.tasks = [t1, t2, t3])
    (hval : c.validate = .ok ())
    (h1 : perform (t1.set_status .Running) = .ok ())
    (h2 : perform (t2.set_status .Running) = .error e)
    (h3 : perform (t3.set_status .Running) = .ok ())
    (o1 : outcome t1 = .ok)
    (o2 : outcome t2 = .fail e)
    (o3 : outcome t3 = .ok) :
    (c.process = "parallel" →
      c.execute perform = (c, .error (.ExecutionError
        ("Multiple task execution failures: " ++
          ("Task " ++ toString t2.id ++ " failed: " ++ e)))))
    ∧ (c.process = "async" →
      c.execute_async perform outcome = (c, .error (.ExecutionError
        ("Multiple async task failures: " ++
          ("Task " ++ toString t2.id ++ " failed: " ++ e)))))
    ∧ (execute_tasks_rayon perform c.tasks).1.map Task.status =
        [.Completed, .Failed ("Task " ++ toString t2.id ++ " failed: " ++ e),
          .Completed]
    ∧ (execute_tasks_tokio outcome c.tasks).1 =
        [.Completed, .Failed ("Task " ++ toString t2.id ++ " failed: " ++ e),
          .Completed] := by
  refine ⟨fun hproc => ?_, fun hproc => ?_, ?_, ?_⟩
  · unfold Crew.execute Crew.execute_parallel_rayon
    rw [hproc]
    simp [hval, hts, execute_tasks_rayon, runTaskClone, h1, h2, h3,
      String.intercalate]
  · unfold Crew.execute_async Crew.execute_concurrent_tokio
    rw [hproc]
    simp [hval, hts, execute_tasks_tokio, tokioActivity, o1, o2, o3,
      String.intercalate]
  · simp [hts, execute_tasks_rayon, runTaskClone, h1, h2, h3]
  · simp [hts, execute_tasks_tokio, tokioActivity, o1, o2, o3]

/-- C2 amended witness: the amended theorem instantiated at the
concrete parallel and async fixture crews with the oracle failing on
task id 2. -/
theorem parallel_concurrent_not_fail_fast_witness :
    crewPar.execute pFail2 = (crewPar, .error (.ExecutionError
        ("Multiple task execution failures: " ++
          ("Task " ++ toString tB.id ++ " failed: " ++ "boom"))))
    ∧ crewAsync.execute_async pFail2 oFail2 = (crewAsync, .error (.ExecutionError
        ("Multiple async task failures: " ++
          ("Task " ++ toString tB.id ++ " failed: " ++ "boom")))) := by
  have hP := parallel_concurrent_not_fail_fast crewPar pFail2 oFail2
    tA tB tC "boom" rfl rfl rfl rfl rfl rfl rfl rfl
  have hA := parallel_concurrent_not_fail_fast crewAsync pFail2 oFail2
    tA tB tC "boom" rfl rfl rfl rfl rfl rfl rfl rfl
  exact ⟨hP.1 rfl, hA.2.1 rfl⟩

/-- C5: process-kind dispatch.  For every crew whose process is the
async kind, the synchronous execute refuses with the exact
InvalidConfig error and leaves the crew untouched, while execute_async
on the same crew runs the cooperative-concurrent strategy; and
execute_async delegates the sequential and parallel kinds to those
strategies. -/
theorem process_kind_dispatch (c : Crew)
    (perform : Task → Except String Unit) (outcome : Task → RunOutcome) :
    (c.process = "async" →
      c.execute perform = (c, .error (.InvalidConfig
        "Cannot execute async process synchronously. Use execute_async() instead."))
      ∧ c.execute_async perform outcome = c.execute_concurrent_tokio outcome)
    ∧ (c.process = "sequential" →
      c.execute_async perform outcome = c.execute_sequential perform)
    ∧ (c.process = "parallel" →
      c.execute_async perform outcome = c.execute_parallel_rayon perform) := by
  refine ⟨fun h => ⟨?_, ?_⟩, fun h => ?_, fun h => ?_⟩ <;>
    simp [Crew.execute, Crew.execute_async, h]

/-- C5 witness: the dispatch theorem instantiated at the concrete
async, sequential and parallel fixture crews. -/
theorem process_kind_dispatch_witness :
    crewAsync.execute pFail2 = (crewAsync, .error (.InvalidConfig
        "Cannot execute async process synchronously. Use execute_async() instead."))
    ∧ crewAsync.execute_async pFail2 oFail2 =
        crewAsync.execute_concurrent_tokio oFail2
    ∧ crewSeq.execute_async pFail2 oFail2 = crewSeq.execute_sequential pFail2
    ∧ crewPar.execute_async pFail2 oFail2 =
        crewPar.execute_parallel_rayon pFail2 := by
  refine ⟨?_, ?_, ?_, ?_⟩
  · exact ((process_kind_dispatch crewAsync pFail2 oFail2).1 rfl).1
  · exact ((process_kind_dispatch crewAsync pFail2 oFail2).1 rfl).2
  · exact (process_kind_dispatch crewSeq pFail2 oFail2).2.1 rfl
  · exact (process_kind_dispatch crewPar pFail2 oFail2).2.2 rfl

/-- The error messages the rayon strategy collects are precisely the
spec-side failure messages, in original task-list order. -/
theorem rayon_errors_eq_spec (perform : Task → Except String Unit)
    (tasks : List Task) :
    (tasks.map (runTaskClone perform)).filterMap (fun r => r.2) =
      specFailureMessages perform tasks := by
  induction tasks with
  | nil => rfl
  | cons t rest ih =>
    simp only [specFailureMessages, List.map_cons, List.filterMap_cons] at *
    cases h : perform (t.set_status .Running) with
    | ok u =>
      cases u
      simp [runTaskClone, h, ih]
    | error e =>
      simp [runTaskClone, h, ih]

/-- C6: the parallel strategy attempts every task — every clone ends
Completed or Failed — and returns an error iff at least one task
failed: success with zero failures, otherwise exactly one aggregated
ExecutionError joining every failure message, collected in original
task-list order. -/
theorem rayon_aggregation (perform : Task → Except String Unit)
    (tasks : List Task) :
    ((execute_tasks_rayon perform tasks).2 = .ok () ↔
      specFailureMessages perform tasks = [])
    ∧ (specFailureMessages perform tasks ≠ [] →
      (execute_tasks_rayon perform tasks).2 = .error (.ExecutionError
        ("Multiple task execution failures: " ++
          String.intercalate ", " (specFailureMessages perform tasks))))
    ∧ (∀ t ∈ (execute_tasks_rayon perform tasks).1,
        t.status = .Completed ∨ ∃ m, t.status = .Failed m) := by
  have he := rayon_errors_eq_spec perform tasks
  refine ⟨?_, ?_, ?_⟩
  · simp only [execute_tasks_rayon, he]
    cases hsp : specFailureMessages perform tasks <;> simp [hsp]
  · intro hne
    simp only [execute_tasks_rayon, he]
    cases hsp : specFailureMessages perform tasks with
    | nil => exact absurd hsp hne
    | cons m ms => simp
  · intro t htmem
    simp only [execute_tasks_rayon, List.mem_map] at htmem
    obtain ⟨r, ⟨s, _hs, rfl⟩, rfl⟩ := htmem
    cases h : perform (s.set_status .Running) with
    | ok u =>
      cases u
      left
      simp [runTaskClone, h]
    | error e =>
      right
      refine ⟨"Task " ++ toString s.id ++ " failed: " ++ e, ?_⟩
      simp [runTaskClone, h]

/-- C6 witness: the aggregation theorem instantiated at the concrete
three-task fixture with the oracle failing on task id 2. -/
theorem rayon_aggregation_witness :
    (execute_tasks_rayon pFail2 [tA, tB, tC]).2 = .error (.ExecutionError
      ("Multiple task execution failures: " ++
        String.intercalate ", " (specFailureMessages pFail2 [tA, tB, tC]))) :=
  (rayon_aggregation pFail2 [tA, tB, tC]).2.1 (by decide)

/-- C7 counterexample: when the second of three tasks panics, the
status vector internal to the tokio strategy ends Completed, Running,
Completed — the panicked task is left at Running, never converted to a
Failed status, because the activity aborts before its final status
write. -/
theorem tokio_panic_status_counterexample :
    (execute_tasks_tokio oPanic2 [tA, tB, tC]).1 =
        [.Completed, .Running, .Completed]
    ∧ ((execute_tasks_tokio oPanic2 [tA, tB, tC]).1.getD 1 .Pending).isFailed
        = false := by
  decide

/-- C7 amended: a panic of one of three tokio activities is caught and
surfaced as a "Task panicked" message inside the single aggregated
error instead of crashing (the strategy still returns a value), the
other activities run to completion with status Completed, and the
panicked task keeps its internal status Running. -/
theorem tokio_panic_caught (outcome : Task → RunOutcome)
    (t1 t2 t3 : Task) (e : String)
    (o1 : outcome t1 = .ok)
    (o2 : outcome t2 = .panicked e)
    (o3 : outcome t3 = .ok) :
    execute_tasks_tokio outcome [t1, t2, t3] =
      ([.Completed, .Running, .Completed],
        .error (.ExecutionError
          ("Multiple async task failures: " ++ ("Task panicked: " ++ e)))) := by
  simp [execute_tasks_tokio, tokioActivity, o1, o2, o3]

/-- C7 amended witness: the panic theorem instantiated at the concrete
three-task fixture with the oracle panicking on task id 2. -/
theorem tokio_panic_caught_witness :
    execute_tasks_tokio oPanic2 [tA, tB, tC] =
      ([.Completed, .Running, .Completed],
        .error (.ExecutionError
          ("Multiple async task failures: " ++ ("Task panicked: " ++ "pboom")))) :=
  tokio_panic_caught oPanic2 tA tB tC "pboom" rfl rfl rfl

/-- The per-task reference walk succeeds iff every set agent name in
the task list resolves to an agent. -/
theorem validateTaskRefs_ok_iff (agents : List Agent) (tasks : List Task) :
    validateTaskRefs agents tasks = .ok () ↔
      ∀ t ∈ tasks, ∀ n, t.agent_name = some n → ∃ a ∈ agents, a.name = n := by
  induction tasks with
  | nil => simp [validateTaskRefs]
  | cons t rest ih =>
    simp only [validateTaskRefs, List.forall_mem_cons]
    cases han : t.agent_name with
    | none => simp [han, ih]
    | some n =>
      by_cases hmem : agents.any (fun a => a.name == n) = true
      · have hex : ∃ a ∈ agents, a.name = n := by
          simpa using List.any_eq_true.mp hmem
        simp [hmem, ih, han, hex]
      · have hnex : ¬ ∃ a ∈ agents, a.name = n := by
          intro hex
          exact hmem (List.any_eq_true.mpr (by simpa using hex))
        simp only [hmem, if_neg]
        constructor
        · intro hcontra
          exact absurd hcontra (by simp)
        · rintro ⟨hfirst, -⟩
          exact absurd (hfirst n (han ▸ rfl)) hnex

/-- The per-task reference walk reports the first dangling reference in
task-list order. -/
theorem validateTaskRefs_first_error (agents : List Agent)
    (pre : List Task) (t : Task) (n : String) (post : List Task)
    (hpre : ∀ t2 ∈ pre, ∀ n2, t2.agent_name = some n2 →
      ∃ a ∈ agents, a.name = n2)
    (hn : t.agent_name = some n)
    (hdangling : ∀ a ∈ agents, a.name ≠ n) :
    validateTaskRefs agents (pre ++ t :: post) = .error (.InvalidConfig
      ("Task references agent \x27" ++ n ++
        "\x27 which doesn\x27t exist in the crew")) := by
  induction pre with
  | nil =>
    have hany : (agents.any fun a => a.name == n) = false := by
      cases hb : agents.any fun a => a.name == n
      · rfl
      · obtain ⟨a, ha, hab⟩ := List.any_eq_true.mp hb
        exact absurd (by simpa using hab) (hdangling a ha)
    simp [validateTaskRefs, hn, hany]
  | cons p ps ih =>
    have hp := hpre p (by simp)
    have hps : ∀ t2 ∈ ps, ∀ n2, t2.agent_name = some n2 →
        ∃ a ∈ agents, a.name = n2 :=
      fun t2 ht2 => hpre t2 (by simp [ht2])
    simp only [List.cons_append, validateTaskRefs]
    cases hpn : p.agent_name with
    | none => exact ih hps
    | some n2 =>
      have hany : (agents.any fun a => a.name == n2) = true := by
        obtain ⟨a, ha, hab⟩ := hp n2 hpn
        exact List.any_eq_true.mpr ⟨a, ha, by simpa using hab⟩
      simp only [hany, if_pos]
      exact ih hps

/-- C8: validate succeeds iff the crew has at least one agent, at least
one task, and every set agent reference resolves; on failure it reports
the first violation in the fixed order agents-empty, tasks-empty, then
the first dangling reference in task-list order. -/
theorem validate_spec (c : Crew) :
    (c.validate = .ok () ↔
      c.agents ≠ [] ∧ c.tasks ≠ [] ∧
        ∀ t ∈ c.tasks, ∀ n, t.agent_name = some n → ∃ a ∈ c.agents, a.name = n)
    ∧ (c.agents = [] →
      c.validate = .error (.InvalidConfig "Crew must have at least one agent"))
    ∧ (c.agents ≠ [] → c.tasks = [] →
      c.validate = .error (.InvalidConfig "Crew must have at least one task"))
    ∧ (∀ pre t n post, c.agents ≠ [] → c.tasks = pre ++ t :: post →
        (∀ t2 ∈ pre, ∀ n2, t2.agent_name = some n2 →
          ∃ a ∈ c.agents, a.name = n2) →
        t.agent_name = some n →
        (∀ a ∈ c.agents, a.name ≠ n) →
        c.validate = .error (.InvalidConfig
          ("Task references agent \x27" ++ n ++
            "\x27 which doesn\x27t exist in the crew"))) := by
  refine ⟨?_, ?_, ?_, ?_⟩
  · unfold Crew.validate
    by_cases ha : c.agents = []
    · simp [ha]
    · by_cases ht : c.tasks = []
      · simp [ha, ht]
      · simp [ha, ht, validateTaskRefs_ok_iff]
  · intro ha
    simp [Crew.validate, ha]
  · intro ha ht
    simp [Crew.validate, ha, ht]
  · intro pre t n post ha hts hpre hn hdangling
    have ht : c.tasks ≠ [] := by
      rw [hts]
      exact List.append_ne_nil_of_right_ne_nil pre (by simp)
    unfold Crew.validate
    simp only [List.isEmpty_iff, ha, ht, if_neg, if_false]
    rw [hts]
    exact validateTaskRefs_first_error c.agents pre t n post hpre hn hdangling

/-- C8 witness: the validate theorem instantiated at the concrete crew
whose only task references the absent agent name ghost. -/
theorem validate_spec_witness :
    crewDangling.validate = .error (.InvalidConfig
      ("Task references agent \x27" ++ "ghost" ++
        "\x27 which doesn\x27t exist in the crew")) :=
  (validate_spec crewDangling).2.2.2 [] tGhost "ghost" []
    (by decide) rfl (by simp [tGhost]) rfl (by decide)

/-- C9: each entity constructor rejects empty required strings — and
Crew.new a process kind outside the closed set — with the exact tagged
MissingField or InvalidConfig error, and with all required strings
present (and a valid process kind for Crew) returns the fully-formed
value and nothing else. -/
theorem constructor_validation
    (aname arole : String) (aexp : Option String)
    (tid : Nat) (tdesc tout : String) (tagent : Option String)
    (cname cproc : String) :
    (aname.isEmpty = true →
      Agent.new aname arole aexp =
        .error (.MissingField "Agent name cannot be empty"))
    ∧ (aname.isEmpty = false → arole.isEmpty = true →
      Agent.new aname arole aexp =
        .error (.MissingField "Agent role cannot be empty"))
    ∧ (aname.isEmpty = false → arole.isEmpty = false →
      Agent.new aname arole aexp =
        .ok { name := aname, role := arole, expertise := aexp })
    ∧ (tdesc.isEmpty = true →
      Task.new tid tdesc tout tagent =
        .error (.MissingField "Task description cannot be empty"))
    ∧ (tdesc.isEmpty = false → tout.isEmpty = true →
      Task.new tid tdesc tout tagent =
        .error (.MissingField "Task expected output cannot be empty"))
    ∧ (tdesc.isEmpty = false → tout.isEmpty = false →
      Task.new tid tdesc tout tagent =
        .ok { id := tid, description := tdesc, expected_output := tout,
              agent_name := tagent, status := .Pending })
    ∧ (cname.isEmpty = true →
      Crew.new cname cproc =
        .error (.MissingField "Crew name cannot be empty"))
    ∧ (cname.isEmpty = false →
      (["sequential", "parallel", "async"].contains cproc) = false →
      Crew.new cname cproc =
        .error (.InvalidConfig ("Invalid process type: " ++ cproc ++
          ". Must be \x27sequential\x27, \x27parallel\x27, or \x27async\x27")))
    ∧ (cname.isEmpty = false →
      (["sequential", "parallel", "async"].contains cproc) = true →
      Crew.new cname cproc =
        .ok { name := cname, agents := [], tasks := [], process := cproc }) := by
  refine ⟨fun h1 => ?_, fun h1 h2 => ?_, fun h1 h2 => ?_, fun h1 => ?_,
    fun h1 h2 => ?_, fun h1 h2 => ?_, fun h1 => ?_, fun h1 h2 => ?_,
    fun h1 h2 => ?_⟩
  · simp [Agent.new, h1]
  · simp [Agent.new, h1, h2]
  · simp [Agent.new, h1, h2]
  · simp [Task.new, h1]
  · simp [Task.new, h1, h2]
  · simp [Task.new, h1, h2]
  · simp [Crew.new, h1]
  · unfold Crew.new
    rw [if_neg (by simp [h1]), if_pos (by simpa using h2)]
  · have h2' : cproc = "sequential" ∨ cproc = "parallel" ∨ cproc = "async" := by
      simpa using h2
    unfold Crew.new
    rw [if_neg (by simp [h1]), if_neg (by simp; tauto)]

/-- C9 witness: the constructor theorem instantiated at concrete empty
and non-empty required strings and at a process kind outside the closed
set. -/
theorem constructor_validation_witness :
    Agent.new "" "r" none =
        .error (.MissingField "Agent name cannot be empty")
    ∧ Agent.new "a" "r" none =
        .ok { name := "a", role := "r", expertise := none }
    ∧ Task.new 1 "" "o1" none =
        .error (.MissingField "Task description cannot be empty")
    ∧ Task.new 1 "d1" "o1" none =
        .ok { id := 1, description := "d1", expected_output := "o1",
              agent_name := none, status := .Pending }
    ∧ Crew.new "c" "weird" =
        .error (.InvalidConfig ("Invalid process type: " ++ "weird" ++
          ". Must be \x27sequential\x27, \x27parallel\x27, or \x27async\x27"))
    ∧ Crew.new "c" "parallel" =
        .ok { name := "c", agents := [], tasks := [], process := "parallel" } := by
  refine ⟨?_, ?_, ?_, ?_, ?_, ?_⟩
  · exact (constructor_validation "" "r" none 1 "d1" "o1" none "c" "weird").1 rfl
  · exact (constructor_validation "a" "r" none 1 "d1" "o1" none "c"
      "weird").2.2.1 rfl rfl
  · exact (constructor_validation "a" "r" none 1 "" "o1" none "c"
      "weird").2.2.2.1 rfl
  · exact (constructor_validation "a" "r" none 1 "d1" "o1" none "c"
      "weird").2.2.2.2.2.1 rfl rfl
  · exact (constructor_validation "a" "r" none 1 "d1" "o1" none "c"
      "weird").2.2.2.2.2.2.2.1 rfl (by decide)
  · exact (constructor_validation "a" "r" none 1 "d1" "o1" none "c"
      "parallel").2.2.2.2.2.2.2.2 rfl (by decide)

/-- Writing a status over a previous status write keeps only the last
one. -/
@[simp] theorem Task.set_status_set_status (t : Task) (a b : TaskStatus) :
    (t.set_status a).set_status b = t.set_status b := rfl

/-- When the opaque operation always succeeds, the sequential walk
completes every task and succeeds. -/
theorem seq_all_ok (perform : Task → Except String Unit)
    (h : ∀ t, perform t = .ok ()) (tasks : List Task) :
    execute_tasks_sequentially perform tasks =
      (tasks.map (fun t => t.set_status .Completed), .ok ()) := by
  induction tasks with
  | nil => rfl
  | cons t rest ih =>
    simp [execute_tasks_sequentially, h, ih]

/-- C10: the placeholder opaque operation of the source succeeds on
every task, so every crew that passes validation with the sequential
process kind executes successfully and ends with every task Completed. -/
theorem placeholder_sequential_all_completed (c : Crew)
    (hv : c.validate = .ok ()) (hproc : c.process = "sequential") :
    (∀ t, Task.execute t = .ok ())
    ∧ (c.execute Task.execute).2 = .ok ()
    ∧ (c.execute Task.execute).1.tasks.map Task.status =
        c.tasks.map (fun _ => .Completed) := by
  have hs := seq_all_ok Task.execute (fun _ => rfl) c.tasks
  refine ⟨fun t => rfl, ?_, ?_⟩ <;>
  · unfold Crew.execute Crew.execute_sequential
    simp [hproc, hv, hs, List.map_map, Function.comp_def]

/-- C10 witness: the all-completed theorem instantiated at the concrete
valid sequential fixture crew. -/
theorem placeholder_sequential_all_completed_witness :
    (crewSeq.execute Task.execute).2 = .ok ()
    ∧ (crewSeq.execute Task.execute).1.tasks.map Task.status =
        crewSeq.tasks.map (fun _ => .Completed) := by
  have h := placeholder_sequential_all_completed crewSeq rfl rfl
  exact ⟨h.2.1, h.2.2⟩

end CrewAI
